import Mathlib

/-
Verification development for the document-assembly and bulk-export subsystem
of `product_cut_sheets_certifications_manager_flask_app.py`.

The Python source is shallowly embedded: Flask handlers become pure functions
threading an explicit application state (the product table plus the on-disk
file store), Python exceptions become `Except`, and the two third-party
library calls (Pillow image decoding / PDF saving, PyPDF2 reading / merging)
are modelled on a constructor-based byte-blob type that records exactly the
distinctions those libraries make on this code's inputs: a well-formed PDF
(its ordered page list plus its producer-written container metadata,
including the clock-derived dates Pillow embeds when saving), a decodable
raster image, or undecodable bytes.
-/

namespace ProductDocs

/-- A decodable raster image, as Pillow sees it: pixel dimensions, whether the
pixel mode carries an alpha channel, and an abstract code for the pixel data. -/
structure Img where
  width : Nat
  height : Nat
  hasAlpha : Bool
  pix : Nat
  deriving DecidableEq, Repr

/-- One page of a PDF document: either a page that was already in a source
PDF (abstract content code), or the single page Pillow produces when saving
an image in PDF format. -/
inductive Page where
  | fromPdf (content : Nat)
  | fromImage (img : Img)
  deriving DecidableEq, Repr

/-- Document-level container metadata of a PDF byte stream: everything beyond
the page content that its producer writes (the /Info dictionary, producer
line, xref layout). An uploaded stored file carries whatever its producer
wrote (abstract code); Pillow's PDF driver writes /CreationDate and /ModDate
entries that default to the current time (`time.gmtime()`), so a container it
saves embeds the wall clock of the run; PyPDF2's writer emits its own fixed
container with no clock-derived field. -/
inductive PdfInfo where
  | stored (code : Nat)
  | pillowSaved (date : Nat)
  | pypdfWritten
  deriving DecidableEq, Repr

/-- The content of a byte stream / stored file, at the granularity the
libraries used by the source distinguish: a well-formed PDF with its page
list and container metadata, a decodable raster image, or bytes neither
library can parse. -/
inductive Blob where
  | pdfDoc (pages : List Page) (info : PdfInfo)
  | imageFile (img : Img)
  | raw (bytes : List Nat)
  deriving DecidableEq, Repr

/-- Python exceptions that the embedded code can raise. -/
inductive PyErr where
  | pdfReadError (msg : String)
  | unsupportedImage (msg : String)
  | fileNotFound (msg : String)
  | valueError (msg : String)
  deriving DecidableEq, Repr

/-- The `str(e)` view of an exception: the message it was raised with. -/
def PyErr.message : PyErr → String
  | .pdfReadError m => m
  | .unsupportedImage m => m
  | .fileNotFound m => m
  | .valueError m => m

/-- PyPDF2 `PdfReader(stream)` followed by `merger.append`: parses a byte
stream as a PDF and yields its pages, raising a read error on anything that
is not a well-formed PDF. -/
def pdfReaderPages (b : Blob) : Except PyErr (List Page) :=
  match b with
  | .pdfDoc pages _ => .ok pages
  | _ => .error (.pdfReadError "EOF marker not found")

/-- The `for s in streams: merger.append(PdfReader(s))` loop: parse every
stream in order, propagating the first parse failure. -/
def readAllPdfs : List Blob → Except PyErr (List (List Page))
  | [] => .ok []
  | s :: rest =>
    match pdfReaderPages s with
    | .error e => .error e
    | .ok ps =>
      match readAllPdfs rest with
      | .error e => .error e
      | .ok pss => .ok (ps :: pss)

/-- Embeds `_merge_pdfs_stream(streams)` from the source: appends each stream to a
`PdfMerger` in order and writes the result. An unparsable stream raises; an
empty stream list yields a PDF with zero pages (PyPDF2's merger writes a
valid empty document when nothing was appended — there is no empty-input
check in the source or the library). -/
def _merge_pdfs_stream (streams : List Blob) : Except PyErr Blob :=
  match readAllPdfs streams with
  | .error e => .error e
  | .ok pagess => .ok (.pdfDoc pagess.flatten .pypdfWritten)

/-- Embeds `_image_to_pdf_bytes(image_path)` from the source: `Image.open`,
convert to RGB (flattening any alpha channel, since PDF has no transparency),
save in PDF format. `now` is the wall clock of the run: Pillow's PDF driver
defaults the /CreationDate and /ModDate it writes to the current time (this
code passes neither explicitly), so the saved container embeds `now` and the
output bytes vary with the clock even for identical input images. Raises if
the bytes do not decode as an image. -/
def _image_to_pdf_bytes (now : Nat) (b : Blob) : Except PyErr Blob :=
  match b with
  | .imageFile img =>
    .ok (.pdfDoc [.fromImage { img with hasAlpha := false }] (.pillowSaved now))
  | _ => .error (.unsupportedImage "cannot identify image file")

/-- Equality of handler outcomes is decidable, so witnesses can be checked
by evaluation. -/
instance {ε α : Type} [DecidableEq ε] [DecidableEq α] : DecidableEq (Except ε α)
  | .ok a, .ok b =>
    if h : a = b then .isTrue (by rw [h]) else .isFalse (by simp [h])
  | .ok _, .error _ => .isFalse (by simp)
  | .error _, .ok _ => .isFalse (by simp)
  | .error e, .error f =>
    if h : e = f then .isTrue (by rw [h]) else .isFalse (by simp [h])

/-- Lowercasing, as Python `str.lower` acts on the ASCII filenames here. -/
def lowerStr (s : String) : String := String.mk (s.toList.map Char.toLower)

/-- Python `str.strip()`: surrounding whitespace removed from both ends. -/
def pyStrip (s : String) : String :=
  String.mk (((s.toList.dropWhile Char.isWhitespace).reverse.dropWhile
    Char.isWhitespace).reverse)

/-- Index of the last `.` in a list of characters, if any. -/
def lastDotIdx (cs : List Char) : Option Nat :=
  ((List.range cs.length).filter (fun i => cs.get? i = some '.')).getLast?

/-- Python `pathlib.PurePath(...).suffix`: on the path's final component, the
part from the last dot on, provided that dot is neither the first nor the
last character of the component; otherwise the empty string. -/
def pathSuffix (fn : String) : String :=
  let name := (fn.toList.reverse.takeWhile (fun c => c ≠ '/')).reverse
  match lastDotIdx name with
  | some i => if 0 < i ∧ i + 1 < name.length then String.mk (name.drop i) else ""
  | none => ""

/-- Python `a or b` on an optional string `a`: `a` unless it is `None` or
empty (both falsy), else `b`. -/
def pyOr (a : Option String) (b : String) : String :=
  match a with
  | some s => if s = "" then b else s
  | none => b

/-- Python `int(s)` on a form-field string: strip surrounding whitespace,
accept an optional sign followed by at least one decimal digit, otherwise
raise `ValueError`. (Python additionally accepts underscore digit grouping,
which no identifier in scope here uses.) -/
def digitsToNat (cs : List Char) : Option Nat :=
  if cs ≠ [] ∧ cs.all Char.isDigit then
    some (cs.foldl (fun acc c => acc * 10 + (c.toNat - 48)) 0)
  else
    none

/-- See `digitsToNat`; the signed decimal parse performed by `int(sid)`. -/
def pyInt (s : String) : Option Int :=
  match (pyStrip s).toList with
  | [] => none
  | '+' :: rest => (digitsToNat rest).map Int.ofNat
  | '-' :: rest => (digitsToNat rest).map (fun n => -(n : Int))
  | cs => (digitsToNat cs).map Int.ofNat

/-- A row of the `product` table; only the columns the export subsystem
reads. `name` is `nullable=False`; the rest are optional. -/
structure Product where
  id : Nat
  name : String
  sku : Option String := none
  model_number : Option String := none
  cutsheet_filename : Option String := none
  cert_filename : Option String := none
  image_filename : Option String := none
  deriving DecidableEq, Repr

/-- The uploads directory, partitioned by category as in the source
(`uploads/cutsheets`, `uploads/certifications`): an association from stored
filename to file bytes per category. -/
structure FileStore where
  cutsheets : List (String × Blob)
  certs : List (String × Blob)
  deriving DecidableEq, Repr

/-- The persistent state the export handlers can observe: the product table
and the file store. -/
structure AppState where
  products : List Product
  store : FileStore
  deriving DecidableEq, Repr

/-- Embeds `Product.query.get(pid)`: the row with that primary key, if any. -/
def queryGet (st : AppState) (pid : Int) : Option Product :=
  st.products.find? (fun p => (p.id : Int) == pid)

/-- Embeds `p.cutsheet_path()` combined with `path.exists()` and `read_bytes()`:
the cutsheet bytes when the record has a cutsheet reference AND the referenced
file exists in the store, else `none`. -/
def cutsheetBlob (st : AppState) (p : Product) : Option Blob :=
  p.cutsheet_filename.bind (fun fn => st.store.cutsheets.lookup fn)

/-- Embeds `p.cert_path()` combined with `path.exists()` and `read_bytes()`. -/
def certBlob (st : AppState) (p : Product) : Option Blob :=
  p.cert_filename.bind (fun fn => st.store.certs.lookup fn)

/-- Embeds `p.model_number or p.sku or p.name`, the label used by the single
download handlers. -/
def singleLabel (p : Product) : String :=
  pyOr p.model_number (pyOr p.sku p.name)

/-- Embeds `(p.model_number or p.sku or p.name).strip().replace("/", "-")`, the
filesystem-safe label used by the bulk handler (replacing the one-character
pattern `/` is a character-wise substitution). -/
def bulkLabel (p : Product) : String :=
  String.mk ((pyStrip (singleLabel p)).toList.map (fun c => if c = '/' then '-' else c))

/-- Embeds `_cert_as_pdf_stream(product)` from the source: raise `FileNotFoundError`
if the certification reference is absent or its file is missing; return the
stored bytes verbatim when the stored extension is `.pdf`; otherwise convert
the image to a PDF. -/
def _cert_as_pdf_stream (now : Nat) (st : AppState) (p : Product) : Except PyErr Blob :=
  match certBlob st p with
  | none => .error (.fileNotFound "Certification file missing.")
  | some b =>
    if lowerStr (pathSuffix (p.cert_filename.getD "")) = ".pdf" then
      .ok b
    else
      _image_to_pdf_bytes now b

/-- What Flask sends back on the success path of a download handler:
`send_file(content, as_attachment=True, download_name=...)`. -/
structure SendFileResp where
  content : Blob
  download_name : String
  deriving DecidableEq, Repr

/-- A non-success outcome of `download_combined`: an `abort(code, msg)` or an
exception that escaped the handler (surfaced by Flask as a 500). -/
inductive HttpErr where
  | abort (code : Nat) (msg : String)
  | uncaught (e : PyErr)
  deriving DecidableEq, Repr

/-- Handler `GET /download/combined/<pid>` — `download_combined` from the source.
404 if the record does not exist; 404 with the cutsheet message if the
cutsheet reference does not resolve to an existing file; then 404 with the
certification message likewise; otherwise merge `[cutsheet bytes,
certification as PDF]` in that order and send it as
`{label}-combined.pdf`. The state is returned unchanged: every operation
performed is a read. -/
def download_combined (now : Nat) (st : AppState) (pid : Nat) :
    Except HttpErr SendFileResp × AppState :=
  match queryGet st (pid : Int) with
  | none => (.error (.abort 404 "Not Found"), st)
  | some p =>
    match cutsheetBlob st p with
    | none => (.error (.abort 404 "Cutsheet is required to create combined file."), st)
    | some cs =>
      match certBlob st p with
      | none =>
        (.error (.abort 404 "Certification file is required to create combined file."), st)
      | some _ =>
        match _cert_as_pdf_stream now st p with
        | .error e => (.error (.uncaught e), st)
        | .ok certPdf =>
          match _merge_pdfs_stream [cs, certPdf] with
          | .error e => (.error (.uncaught e), st)
          | .ok combined =>
            (.ok { content := combined,
                   download_name := singleLabel p ++ "-combined.pdf" }, st)

/-- One entry of the ZIP archive built by `bulk_download`: either a file's
bytes written at an archive path (`zf.write` / `zf.writestr` of PDF bytes),
or a plain-text entry (`zf.writestr` of an error marker). -/
inductive ZipEntry where
  | file (arcname : String) (content : Blob)
  | text (arcname : String) (body : String)
  deriving DecidableEq, Repr

/-- The body of `bulk_download`'s per-record `try` block: dispatch on the
requested action and produce this record's archive entries (zero or one).
A missing stored file in any branch falls through the `exists` test and
writes nothing; only a raised exception escapes as `.error`. An action
outside the three known kinds matches no branch and writes nothing. -/
def bulkItemBody (now : Nat) (st : AppState) (action : String) (p : Product)
    (label : String) : Except PyErr (List ZipEntry) :=
  if action = "cutsheet" then
    match cutsheetBlob st p with
    | some b => .ok [.file (label ++ "/cutsheet.pdf") b]
    | none => .ok []
  else if action = "cert" then
    match p.cert_filename with
    | none => .ok []
    | some fn =>
      match st.store.certs.lookup fn with
      | none => .ok []
      | some b => .ok [.file (label ++ "/cert" ++ lowerStr (pathSuffix fn)) b]
  else if action = "combined" then
    match cutsheetBlob st p, certBlob st p with
    | some cs, some _ =>
      match _cert_as_pdf_stream now st p with
      | .error e => .error e
      | .ok certPdf =>
        match _merge_pdfs_stream [cs, certPdf] with
        | .error e => .error e
        | .ok combined => .ok [.file (label ++ "/" ++ label ++ "-combined.pdf") combined]
    | _, _ => .ok []
  else
    .ok []

/-- One iteration of `bulk_download`'s loop over the submitted id strings.
`int(sid)` and the record lookup happen OUTSIDE the `try` block: a
non-numeric id raises `ValueError` out of the whole handler (`.error`),
while an id that parses but resolves to no record is skipped (`continue`).
For a resolved record, any exception from the body is caught and replaced by
an `ERROR.txt` entry carrying the exception's message. -/
def bulkItem (now : Nat) (st : AppState) (action : String) (sid : String) :
    Except PyErr (List ZipEntry) :=
  match pyInt sid with
  | none => .error (.valueError ("invalid literal for int with base 10: " ++ sid))
  | some pid =>
    match queryGet st pid with
    | none => .ok []
    | some p =>
      let label := bulkLabel p
      match bulkItemBody now st action p label with
      | .ok es => .ok es
      | .error e => .ok [.text (label ++ "/ERROR.txt") ("Failed to process: " ++ e.message)]

/-- The whole loop of `bulk_download`: entries accumulate into the archive in
submission order; an uncaught exception from any iteration propagates and
discards the archive. -/
def bulkEntries (now : Nat) (st : AppState) (action : String) :
    List String → Except PyErr (List ZipEntry)
  | [] => .ok []
  | sid :: rest =>
    match bulkItem now st action sid with
    | .error e => .error e
    | .ok es =>
      match bulkEntries now st action rest with
      | .error e => .error e
      | .ok restEs => .ok (es ++ restEs)

/-- The ZIP archive `bulk_download` sends back: its download name and its
entries in write order. -/
structure Archive where
  download_name : String
  entries : List ZipEntry
  deriving DecidableEq, Repr

/-- A non-archive outcome of `bulk_download`: the flash-and-redirect taken
when no ids were submitted, or an exception that escaped the handler. -/
inductive BulkErr where
  | flashRedirect (msg : String)
  | uncaught (e : PyErr)
  deriving DecidableEq, Repr

/-- Handler `POST /bulk/download` — `bulk_download` from the source. If the submitted
id list is empty, flash "No products selected" and redirect before any
processing; otherwise run the loop and send the accumulated archive as
`products-{action}.zip`. The state is returned unchanged: every operation
performed is a read. -/
def bulk_download (now : Nat) (st : AppState) (action : String) (ids : List String) :
    Except BulkErr Archive × AppState :=
  if ids = [] then
    (.error (.flashRedirect "No products selected"), st)
  else
    match bulkEntries now st action ids with
    | .error e => (.error (.uncaught e), st)
    | .ok entries =>
      (.ok { download_name := "products-" ++ action ++ ".zip", entries := entries }, st)

/-! Concrete fixture: a small application state used to exercise the
handlers on explicit inputs. Record 1 has both files well-formed, record 2
has a well-formed cutsheet but a certification file whose bytes are not a
parsable PDF despite its `.pdf` name, record 3 has no cutsheet reference and
a certification reference whose stored file is absent. -/

/-- Fixture record with both source files present and well-formed. -/
def pA : Product :=
  { id := 1, name := "Widget A", sku := some "A1", model_number := some "A1",
    cutsheet_filename := some "a.pdf", cert_filename := some "a_cert.pdf" }

/-- Fixture record whose certification file exists but holds unparsable
bytes, so combined processing raises. -/
def pB : Product :=
  { id := 2, name := "Widget B", sku := some "B1", model_number := some "B1",
    cutsheet_filename := some "b.pdf", cert_filename := some "b_cert.pdf" }

/-- Fixture record with no cutsheet reference and a dangling certification
reference. -/
def pC : Product :=
  { id := 3, name := "Widget C", sku := some "C1", model_number := some "C1",
    cutsheet_filename := none, cert_filename := some "c_cert.png" }

/-- Fixture application state holding the three records above. -/
def stExample : AppState :=
  { products := [pA, pB, pC],
    store :=
      { cutsheets := [("a.pdf", .pdfDoc [.fromPdf 1] (.stored 1)),
          ("b.pdf", .pdfDoc [.fromPdf 3] (.stored 2))],
        certs := [("a_cert.pdf", .pdfDoc [.fromPdf 2] (.stored 3)),
          ("b_cert.pdf", .raw [0])] } }

/-! ### Helper lemmas -/

/-- The per-id loop distributes over list concatenation: entries accumulate
left to right and the first uncaught exception wins. -/
theorem bulkEntries_append (now : Nat) (st : AppState) (action : String)
    (l1 l2 : List String) :
    bulkEntries now st action (l1 ++ l2) =
      match bulkEntries now st action l1 with
      | .error e => .error e
      | .ok e1 =>
        match bulkEntries now st action l2 with
        | .error e => .error e
        | .ok e2 => .ok (e1 ++ e2) := by
  induction l1 with
  | nil =>
    simp only [List.nil_append, bulkEntries]
    cases bulkEntries now st action l2 <;> simp
  | cons s l ih =>
    simp only [List.cons_append, bulkEntries, List.append_eq]
    rw [ih]
    cases hi : bulkItem now st action s with
    | error e => rfl
    | ok es =>
      cases h1 : bulkEntries now st action l with
      | error e => rfl
      | ok e1 =>
        cases h2 : bulkEntries now st action l2 with
        | error e => rfl
        | ok e2 => simp [List.append_assoc]

/-- When every submitted id parses as an integer, no iteration of the loop
can raise: resolution failures are skipped and body failures are downgraded
to error-marker entries. -/
theorem bulkEntries_ok_of_parses (now : Nat) (st : AppState) (action : String) :
    ∀ ids : List String, (∀ s ∈ ids, (pyInt s).isSome) →
      ∃ es, bulkEntries now st action ids = .ok es := by
  intro ids
  induction ids with
  | nil => exact fun _ => ⟨[], rfl⟩
  | cons s l ih =>
    intro h
    have hs : (pyInt s).isSome := h s (List.mem_cons_self s l)
    have hitem : ∃ es, bulkItem now st action s = .ok es := by
      rcases hpi : pyInt s with _ | pid
      · rw [hpi] at hs; simp at hs
      · cases hq : queryGet st pid with
        | none => exact ⟨[], by simp [bulkItem, hpi, hq]⟩
        | some p =>
          cases hb : bulkItemBody now st action p (bulkLabel p) with
          | error e =>
            exact ⟨[ZipEntry.text (bulkLabel p ++ "/ERROR.txt")
                ("Failed to process: " ++ e.message)], by simp [bulkItem, hpi, hq, hb]⟩
          | ok es => exact ⟨es, by simp [bulkItem, hpi, hq, hb]⟩
    obtain ⟨es, he⟩ := hitem
    obtain ⟨es2, he2⟩ := ih (fun t ht => h t (List.mem_cons_of_mem s ht))
    exact ⟨es ++ es2, by simp [bulkEntries, he, he2]⟩

/-- A submitted id that does not parse as an integer makes the loop raise. -/
theorem bulkEntries_error_of_bad (now : Nat) (st : AppState) (action : String) :
    ∀ ids : List String, (∃ s ∈ ids, pyInt s = none) →
      ∃ e, bulkEntries now st action ids = .error e := by
  intro ids
  induction ids with
  | nil => rintro ⟨s, hmem, -⟩; simp at hmem
  | cons a l ih =>
    rintro ⟨s, hmem, hnone⟩
    rcases List.mem_cons.mp hmem with h | h
    · subst h
      exact ⟨.valueError ("invalid literal for int with base 10: " ++ s),
        by simp [bulkEntries, bulkItem, hnone]⟩
    · obtain ⟨e, he⟩ := ih ⟨s, h, hnone⟩
      cases hi : bulkItem now st action a with
      | error e2 => exact ⟨e2, by simp [bulkEntries, hi]⟩
      | ok es => exact ⟨e, by simp [bulkEntries, hi, he]⟩

/-! ### Claims -/

/-- C1: for a record whose cutsheet file and certification file both exist,
the single-record combined export returns exactly the pages of the cutsheet
document followed by the pages of the certification in its document form —
document first, certification second, never reversed. -/
theorem combined_export_order (now : Nat) (st : AppState) (pid : Nat)
    (p : Product) (c : Blob) (ps qs : List Page) (ics iq : PdfInfo)
    (hp : queryGet st (pid : Int) = some p)
    (hcs : cutsheetBlob st p = some (.pdfDoc ps ics))
    (hc : certBlob st p = some c)
    (hpdf : _cert_as_pdf_stream now st p = .ok (.pdfDoc qs iq)) :
    (download_combined now st pid).1 =
      .ok { content := .pdfDoc (ps ++ qs) .pypdfWritten,
            download_name := singleLabel p ++ "-combined.pdf" } := by
  simp only [download_combined, hp, hcs, hc, hpdf]
  simp [_merge_pdfs_stream, readAllPdfs, pdfReaderPages]

/-- Witness for C1 on the fixture: record 1 has cutsheet page 1 and
certification page 2, and the combined export is page 1 then page 2. -/
theorem combined_export_order_witness :
    queryGet stExample (1 : Int) = some pA ∧
    (download_combined 0 stExample 1).1 =
      .ok { content := .pdfDoc [.fromPdf 1, .fromPdf 2] .pypdfWritten,
            download_name := singleLabel pA ++ "-combined.pdf" } :=
  ⟨by decide,
    combined_export_order 0 stExample 1 pA (.pdfDoc [.fromPdf 2] (.stored 3))
      [.fromPdf 1] [.fromPdf 2] (.stored 1) (.stored 3)
      (by decide) (by decide) (by decide) (by decide)⟩

/-- C3: the single-record combined export checks its preconditions in order:
a non-resolving cutsheet reference aborts with the cutsheet-missing message
(whatever the certification's state), and otherwise a non-resolving
certification reference aborts with the certification-missing message; both
failure cases produce an error response, never a document. -/
theorem combined_export_precondition_order (now : Nat) (st : AppState)
    (pid : Nat) (p : Product) (hp : queryGet st (pid : Int) = some p) :
    (cutsheetBlob st p = none →
      (download_combined now st pid).1 =
        .error (.abort 404 "Cutsheet is required to create combined file.")) ∧
    (∀ cs, cutsheetBlob st p = some cs → certBlob st p = none →
      (download_combined now st pid).1 =
        .error (.abort 404 "Certification file is required to create combined file.")) := by
  constructor
  · intro h
    simp [download_combined, hp, h]
  · intro cs h1 h2
    simp [download_combined, hp, h1, h2]

/-- Witness for C3 on the fixture: record 3 is missing BOTH files, and the
export fails with the cutsheet-missing message. -/
theorem combined_export_precondition_order_witness :
    queryGet stExample (3 : Int) = some pC ∧ certBlob stExample pC = none ∧
    (download_combined 0 stExample 3).1 =
      .error (.abort 404 "Cutsheet is required to create combined file.") :=
  ⟨by decide, by decide,
    (combined_export_precondition_order 0 stExample 3 pC (by decide)).1 (by decide)⟩

/-- C4 counterexample: the document concatenation applied to an empty list
does not raise any error — it returns a valid document with zero pages
(there is no empty-input check in `_merge_pdfs_stream` or the merger). -/
theorem merge_empty_no_error_counterexample :
    _merge_pdfs_stream [] = .ok (.pdfDoc [] .pypdfWritten) := rfl

/-- C4 (amended): concatenation of an empty stream list succeeds with an
empty document rather than failing; concatenation of a single well-formed
document returns a document with exactly that input's pages. -/
theorem merge_empty_and_singleton :
    _merge_pdfs_stream [] = .ok (.pdfDoc [] .pypdfWritten) ∧
    ∀ (ps : List Page) (i : PdfInfo),
      _merge_pdfs_stream [.pdfDoc ps i] = .ok (.pdfDoc ps .pypdfWritten) := by
  refine ⟨rfl, fun ps i => ?_⟩
  simp [_merge_pdfs_stream, readAllPdfs, pdfReaderPages]

/-- C7 counterexample: the image-to-document conversion is NOT byte-for-byte
deterministic across runs — converting the same image at clock times 0 and 1
yields different output bytes, because Pillow's PDF driver defaults the
/CreationDate and /ModDate it writes to the current time. -/
theorem image_to_pdf_not_deterministic_counterexample :
    _image_to_pdf_bytes 0 (.imageFile ⟨2, 3, true, 5⟩) ≠
      _image_to_pdf_bytes 1 (.imageFile ⟨2, 3, true, 5⟩) := by
  decide

/-- C7 (amended): the conversion's page content is a function of the input
image alone — two successful conversions of the same bytes, at any two clock
times, produce documents with identical pages — while the container metadata
of each output embeds exactly the clock time of that run (the creation and
modification dates Pillow defaults to the current time), which is the only
run-dependent content. -/
theorem image_to_pdf_pages_deterministic (t1 t2 : Nat) (b : Blob)
    (ps1 ps2 : List Page) (i1 i2 : PdfInfo)
    (h1 : _image_to_pdf_bytes t1 b = .ok (.pdfDoc ps1 i1))
    (h2 : _image_to_pdf_bytes t2 b = .ok (.pdfDoc ps2 i2)) :
    ps1 = ps2 ∧ i1 = .pillowSaved t1 ∧ i2 = .pillowSaved t2 := by
  cases b with
  | pdfDoc pages info => simp [_image_to_pdf_bytes] at h1
  | raw bs => simp [_image_to_pdf_bytes] at h1
  | imageFile img =>
    simp only [_image_to_pdf_bytes, Except.ok.injEq, Blob.pdfDoc.injEq] at h1 h2
    exact ⟨h1.1.symm.trans h2.1, h1.2.symm, h2.2.symm⟩

/-- Witness for C7 (amended): the same image converted at clock times 0 and
1 gives the same single flattened page, with each output's metadata stamped
by its own run's clock. -/
theorem image_to_pdf_pages_deterministic_witness :
    _image_to_pdf_bytes 0 (.imageFile ⟨2, 3, true, 5⟩) =
      .ok (.pdfDoc [.fromImage ⟨2, 3, false, 5⟩] (.pillowSaved 0)) ∧
    ([Page.fromImage ⟨2, 3, false, 5⟩] = [Page.fromImage ⟨2, 3, false, 5⟩] ∧
      PdfInfo.pillowSaved 0 = .pillowSaved 0 ∧
      PdfInfo.pillowSaved 1 = .pillowSaved 1) :=
  ⟨by decide,
    image_to_pdf_pages_deterministic 0 1 (.imageFile ⟨2, 3, true, 5⟩)
      [.fromImage ⟨2, 3, false, 5⟩] [.fromImage ⟨2, 3, false, 5⟩]
      (.pillowSaved 0) (.pillowSaved 1) (by decide) (by decide)⟩

/-- C2: during bulk export, an exception raised while producing the entry of
a record that resolved is caught and replaced by a plain-text `ERROR.txt`
entry at that record's path carrying the exception's message, and every
other identifier's entries — before and after the failing one — still appear
in the returned archive. -/
theorem bulk_error_marker_isolation (now : Nat) (st : AppState) (action : String)
    (ids1 ids2 : List String) (sid : String) (pid : Int) (p : Product)
    (e : PyErr) (es1 es2 : List ZipEntry)
    (hsid : pyInt sid = some pid)
    (hp : queryGet st pid = some p)
    (hbody : bulkItemBody now st action p (bulkLabel p) = .error e)
    (h1 : bulkEntries now st action ids1 = .ok es1)
    (h2 : bulkEntries now st action ids2 = .ok es2) :
    (bulk_download now st action (ids1 ++ sid :: ids2)).1 =
      .ok { download_name := "products-" ++ action ++ ".zip",
            entries := es1 ++
              (ZipEntry.text (bulkLabel p ++ "/ERROR.txt")
                ("Failed to process: " ++ e.message) :: es2) } := by
  have hitem : bulkItem now st action sid =
      .ok [.text (bulkLabel p ++ "/ERROR.txt") ("Failed to process: " ++ e.message)] := by
    simp [bulkItem, hsid, hp, hbody]
  have hmid : bulkEntries now st action (sid :: ids2) =
      .ok (ZipEntry.text (bulkLabel p ++ "/ERROR.txt")
        ("Failed to process: " ++ e.message) :: es2) := by
    simp [bulkEntries, hitem, h2]
  have hall : bulkEntries now st action (ids1 ++ sid :: ids2) =
      .ok (es1 ++ (ZipEntry.text (bulkLabel p ++ "/ERROR.txt")
        ("Failed to process: " ++ e.message) :: es2)) := by
    rw [bulkEntries_append, h1, hmid]
  have hne : ids1 ++ sid :: ids2 ≠ [] := by simp
  simp [bulk_download, hne, hall]

/-- Witness for C2 on the fixture: record 2's certification file exists but
is unparsable, so the combined bulk export over ids ["2", "1"] yields the
error marker for record 2 AND still the real combined entry for record 1. -/
theorem bulk_error_marker_isolation_witness :
    queryGet stExample (2 : Int) = some pB ∧
    (bulk_download 0 stExample "combined" ["2", "1"]).1 =
      .ok { download_name := "products-combined.zip",
            entries := [ZipEntry.text (bulkLabel pB ++ "/ERROR.txt")
                ("Failed to process: " ++ (PyErr.pdfReadError "EOF marker not found").message),
              ZipEntry.file "A1/A1-combined.pdf"
                (.pdfDoc [.fromPdf 1, .fromPdf 2] .pypdfWritten)] } :=
  ⟨by decide,
    bulk_error_marker_isolation 0 stExample "combined" [] ["1"] "2" 2 pB
      (.pdfReadError "EOF marker not found") []
      [ZipEntry.file "A1/A1-combined.pdf" (.pdfDoc [.fromPdf 1, .fromPdf 2] .pypdfWritten)]
      (by decide) (by decide) (by decide) (by decide) (by decide)⟩

/-- C5: in bulk export, a resolved record whose requested file is absent is
skipped entirely — no archive entry and no error marker — for the
document-only and certification-only kinds, and likewise for the combined
kind when either or both source files are missing. -/
theorem bulk_missing_file_skipped (now : Nat) (st : AppState) (action sid : String)
    (pid : Int) (p : Product)
    (hsid : pyInt sid = some pid) (hp : queryGet st pid = some p) :
    (action = "cutsheet" → cutsheetBlob st p = none →
      bulkItem now st action sid = .ok []) ∧
    (action = "cert" → certBlob st p = none →
      bulkItem now st action sid = .ok []) ∧
    (action = "combined" → (cutsheetBlob st p = none ∨ certBlob st p = none) →
      bulkItem now st action sid = .ok []) := by
  refine ⟨?_, ?_, ?_⟩
  · rintro rfl h
    simp [bulkItem, hsid, hp, bulkItemBody, h]
  · rintro rfl h
    rcases hfn : p.cert_filename with _ | fn
    · simp [bulkItem, hsid, hp, bulkItemBody, hfn]
    · have hlk : st.store.certs.lookup fn = none := by
        simpa [certBlob, hfn] using h
      simp [bulkItem, hsid, hp, bulkItemBody, hfn, hlk]
  · rintro rfl h
    rcases h with h | h
    · simp [bulkItem, hsid, hp, bulkItemBody, h]
    · rcases hcs : cutsheetBlob st p with _ | cs <;>
        simp [bulkItem, hsid, hp, bulkItemBody, hcs, h]

/-- Witness for C5 on the fixture: record 3 resolves but has no cutsheet and
a dangling certification reference, and the combined bulk pass over it
produces no entry at all. -/
theorem bulk_missing_file_skipped_witness :
    queryGet stExample (3 : Int) = some pC ∧
    bulkItem 0 stExample "combined" "3" = .ok [] :=
  ⟨by decide,
    (bulk_missing_file_skipped 0 stExample "combined" "3" 3 pC (by decide)
      (by decide)).2.2 rfl (Or.inl (by decide))⟩

/-- C6 counterexample: a non-empty identifier list can still make the whole
bulk job fail — `["x"]` is non-empty, yet the export aborts with an uncaught
`ValueError` (not the no-records-selected condition) and returns no archive. -/
theorem bulk_nonempty_abort_counterexample :
    (["x"] ≠ ([] : List String)) ∧
    (bulk_download 0 stExample "combined" ["x"]).1 =
      .error (.uncaught (.valueError "invalid literal for int with base 10: x")) := by
  constructor
  · decide
  · decide

/-- C6 (amended): bulk export fails with the no-records-selected condition
exactly when the identifier list is empty, before any processing; and for
every non-empty identifier list whose elements all parse as decimal
integers, the job itself succeeds and returns an archive, even when every
record failed or was skipped. -/
theorem bulk_job_outcome (now : Nat) (st : AppState) (action : String) :
    (∀ ids : List String,
      (bulk_download now st action ids).1 =
          .error (.flashRedirect "No products selected") ↔ ids = []) ∧
    (∀ ids : List String, ids ≠ [] → (∀ s ∈ ids, (pyInt s).isSome) →
      ∃ ar, (bulk_download now st action ids).1 = .ok ar) := by
  constructor
  · intro ids
    constructor
    · intro h
      by_contra hne
      rw [bulk_download, if_neg hne] at h
      cases he : bulkEntries now st action ids with
      | error e => rw [he] at h; exact BulkErr.noConfusion (Except.error.inj h)
      | ok es => rw [he] at h; exact Except.noConfusion h
    · rintro rfl
      rfl
  · intro ids hne hparse
    obtain ⟨es, he⟩ := bulkEntries_ok_of_parses now st action ids hparse
    exact ⟨_, by rw [bulk_download, if_neg hne, he]⟩

/-- Witness for C6 (amended) on the fixture: the singleton id list ["3"]
(resolving to a record that is skipped) still yields a successful archive,
and the empty list yields the no-records-selected redirect. -/
theorem bulk_job_outcome_witness :
    ((bulk_download 0 stExample "combined" []).1 =
        .error (.flashRedirect "No products selected")) ∧
    ∃ ar, (bulk_download 0 stExample "combined" ["3"]).1 = .ok ar :=
  ⟨((bulk_job_outcome 0 stExample "combined").1 []).mpr rfl,
    (bulk_job_outcome 0 stExample "combined").2 ["3"] (by decide) (by decide)⟩

/-- C8: both export handlers are read-only — for every input they return the
application state (product table and stored files) unchanged; their only
product is the returned response. -/
theorem export_read_only (now : Nat) (st : AppState) (pid : Nat)
    (action : String) (ids : List String) :
    (download_combined now st pid).2 = st ∧
    (bulk_download now st action ids).2 = st := by
  constructor
  · unfold download_combined
    repeat' split
    all_goals rfl
  · unfold bulk_download
    repeat' split
    all_goals rfl

/-- C9: the integer parse of a submitted identifier happens outside the
per-record exception handler — if any identifier string does not parse as a
decimal integer the whole bulk job aborts with an uncaught error and no
archive is returned, while an identifier that parses but resolves to no
record is skipped silently (no entry, no error, no abort). -/
theorem bulk_malformed_id_aborts (now : Nat) (st : AppState) (action : String)
    (ids : List String)
    (hne : ids ≠ []) (hbad : ∃ s ∈ ids, pyInt s = none) :
    (∃ e, (bulk_download now st action ids).1 = .error (.uncaught e)) ∧
    (∀ sid pid, pyInt sid = some pid → queryGet st pid = none →
      bulkItem now st action sid = .ok []) := by
  constructor
  · obtain ⟨e, he⟩ := bulkEntries_error_of_bad now st action ids hbad
    exact ⟨e, by rw [bulk_download, if_neg hne, he]⟩
  · intro sid pid h1 h2
    simp [bulkItem, h1, h2]

/-- Witness for C9 on the fixture: ids ["1", "x"] are non-empty, "x" does
not parse, and the whole job aborts with an uncaught error. -/
theorem bulk_malformed_id_aborts_witness :
    (["1", "x"] ≠ ([] : List String)) ∧ pyInt "x" = none ∧
    ∃ e, (bulk_download 0 stExample "combined" ["1", "x"]).1 =
      .error (.uncaught e) :=
  ⟨by decide, by decide,
    (bulk_malformed_id_aborts 0 stExample "combined" ["1", "x"] (by decide)
      ⟨"x", by decide, by decide⟩).1⟩

/-- With an action outside the three known kinds, no loop iteration writes
an entry or raises (for parseable ids). -/
theorem bulkEntries_nil_of_unknown_action (now : Nat) (st : AppState)
    (action : String)
    (h1 : action ≠ "cutsheet") (h2 : action ≠ "cert") (h3 : action ≠ "combined") :
    ∀ ids : List String, (∀ s ∈ ids, (pyInt s).isSome) →
      bulkEntries now st action ids = .ok [] := by
  intro ids
  induction ids with
  | nil => exact fun _ => rfl
  | cons s l ih =>
    intro h
    have hs : (pyInt s).isSome := h s (List.mem_cons_self s l)
    have hitem : bulkItem now st action s = .ok [] := by
      rcases hpi : pyInt s with _ | pid
      · rw [hpi] at hs; simp at hs
      · cases hq : queryGet st pid with
        | none => simp [bulkItem, hpi, hq]
        | some p =>
          have hb : bulkItemBody now st action p (bulkLabel p) = .ok [] := by
            unfold bulkItemBody
            rw [if_neg h1, if_neg h2, if_neg h3]
          simp [bulkItem, hpi, hq, hb]
    have hrest := ih (fun t ht => h t (List.mem_cons_of_mem s ht))
    simp [bulkEntries, hitem, hrest]

/-- C10 counterexample: with an unrecognized action, a non-empty identifier
list can still make bulk export fail — `["x"]` is non-empty, yet the job
aborts on the identifier parse rather than returning an empty archive. -/
theorem bulk_unknown_action_abort_counterexample :
    (["x"] ≠ ([] : List String)) ∧
    ("frobnicate" ≠ "cutsheet" ∧ "frobnicate" ≠ "cert" ∧ "frobnicate" ≠ "combined") ∧
    (bulk_download 0 stExample "frobnicate" ["x"]).1 =
      .error (.uncaught (.valueError "invalid literal for int with base 10: x")) := by
  refine ⟨by decide, by decide, by decide⟩

/-- C10 (amended): for every non-empty identifier list whose elements all
parse as decimal integers, bulk export with an action outside
{cutsheet, cert, combined} does not fail: no branch writes an entry, so it
returns an archive with zero entries, named after the unrecognized action. -/
theorem bulk_unknown_action_empty_archive (now : Nat) (st : AppState)
    (action : String) (ids : List String)
    (h1 : action ≠ "cutsheet") (h2 : action ≠ "cert") (h3 : action ≠ "combined")
    (hne : ids ≠ []) (hparse : ∀ s ∈ ids, (pyInt s).isSome) :
    (bulk_download now st action ids).1 =
      .ok { download_name := "products-" ++ action ++ ".zip", entries := [] } := by
  have he := bulkEntries_nil_of_unknown_action now st action h1 h2 h3 ids hparse
  rw [bulk_download, if_neg hne, he]

/-- Witness for C10 (amended) on the fixture: action "frobnicate" over ids
["1", "2"] returns the archive `products-frobnicate.zip` with no entries. -/
theorem bulk_unknown_action_empty_archive_witness :
    (["1", "2"] ≠ ([] : List String)) ∧
    (bulk_download 0 stExample "frobnicate" ["1", "2"]).1 =
      .ok { download_name := "products-frobnicate.zip", entries := [] } :=
  ⟨by decide,
    bulk_unknown_action_empty_archive 0 stExample "frobnicate" ["1", "2"]
      (by decide) (by decide) (by decide) (by decide) (by decide)⟩

end ProductDocs
